import Mathlib

/-!
Verification development for the transfer-simulator repository.

The core under study is `src/transfer_simulator.py`, containing

* `scale_metric` — the power-based metric scaler (team/league rating ratios
  amplified by a sensitivity exponent, optional position-context ratios
  softened by a weight exponent, clamped to `[0.3, 3.0]`, rounded to two
  decimals), and
* `simulate_player_transfer` — the orchestrator: player lookup, rating
  resolution (team table lookup with default 50; league resolution by
  substring containment over an ordered mapping with default 50),
  position-cohort averaging, and per-metric scaling.

Two embeddings of the scaler are given:

* `scale_metric` over `ℝ` with `Option ℝ` position averages — faithful to the
  Python function on finite (non-NaN) float inputs; used for the numeric
  properties (bounds, identity, monotonicity, noninterference).
* `scale_metricF` over `PyFloat` (`ℝ` extended with a NaN element) — faithful
  also on NaN inputs, mirroring Python float comparison/truthiness/min/max
  semantics; pandas `Series.mean()` over an empty cohort produces NaN, and
  this embedding is what settles the claims touching that path.
-/

namespace TransferSim

noncomputable section
open Classical

/-- Python `round(x, 2)` modelled over the reals: round `100 * x` to the
nearest integer and divide by 100 (ties are a float artefact out of scope). -/
def round2 (x : ℝ) : ℝ := (round (100 * x) : ℤ) / 100

/-- Python truthiness of an optional float: `None` and `0.0` are falsy,
every other float is truthy. -/
def pyTruthy : Option ℝ → Prop
  | none => False
  | some x => x ≠ 0

/-- Python `o > 0` for an optional float: `None > 0` is an error in Python but
the source only evaluates this after `o` passed the truthiness test, so the
`none` case is unreachable; we make it `False`. -/
def pyPos : Option ℝ → Prop
  | none => False
  | some x => 0 < x

/-- The guard of each position-context block in `scale_metric`
(`if from_avg and to_avg and from_avg > 0`). -/
def posPairCond (fromAvg toAvg : Option ℝ) : Prop :=
  pyTruthy fromAvg ∧ pyTruthy toAvg ∧ pyPos fromAvg

/-- The context factor `(to_avg / from_avg) ** position_weight` multiplied
into the running context effect when the guard holds. -/
def posPairFactor (fromAvg toAvg : Option ℝ) (position_weight : ℝ) : ℝ :=
  (toAvg.getD 0 / fromAvg.getD 0) ^ position_weight

/-- `max(0.3, min(x, 3.0))` — the clamp at line 52 of the source. -/
def clampMult (x : ℝ) : ℝ := max 0.3 (min x 3.0)

/-- The running `context_effect` of lines 35–43: initialised at `1.0`, then
each of the team pair and league pair multiplies its factor in when its
guard holds. -/
def contextEffect
    (from_team_pos_avg to_team_pos_avg from_league_pos_avg to_league_pos_avg :
      Option ℝ) (position_weight : ℝ) : ℝ :=
  let context_effect : ℝ := 1.0
  let context_effect :=
    if posPairCond from_team_pos_avg to_team_pos_avg then
      context_effect *
        posPairFactor from_team_pos_avg to_team_pos_avg position_weight
    else context_effect
  let context_effect :=
    if posPairCond from_league_pos_avg to_league_pos_avg then
      context_effect *
        posPairFactor from_league_pos_avg to_league_pos_avg position_weight
    else context_effect
  context_effect

/-- The pre-clamp `final_multiplier` of lines 22–49. -/
def raw_multiplier
    (from_team_rating to_team_rating from_league_rating to_league_rating : ℝ)
    (from_team_pos_avg to_team_pos_avg from_league_pos_avg to_league_pos_avg :
      Option ℝ)
    (use_position_scaling : Bool) (rating_sensitivity position_weight : ℝ) :
    ℝ :=
  let team_ratio :=
    if from_team_rating > 0 then to_team_rating / from_team_rating else 1
  let league_ratio :=
    if to_league_rating > 0 then from_league_rating / to_league_rating else 1
  let team_effect := team_ratio ^ rating_sensitivity
  let league_effect := league_ratio ^ rating_sensitivity
  let base_multiplier := team_effect * league_effect
  if use_position_scaling then
    base_multiplier *
      contextEffect from_team_pos_avg to_team_pos_avg from_league_pos_avg
        to_league_pos_avg position_weight
  else base_multiplier

/-- The final multiplier computed by `scale_metric` (everything before
`value * final_multiplier`), transliterated from lines 22–52 of
`src/transfer_simulator.py`. -/
def scale_multiplier
    (from_team_rating to_team_rating from_league_rating to_league_rating : ℝ)
    (from_team_pos_avg to_team_pos_avg from_league_pos_avg to_league_pos_avg :
      Option ℝ)
    (use_position_scaling : Bool) (rating_sensitivity position_weight : ℝ) :
    ℝ :=
  clampMult (raw_multiplier from_team_rating to_team_rating from_league_rating
    to_league_rating from_team_pos_avg to_team_pos_avg from_league_pos_avg
    to_league_pos_avg use_position_scaling rating_sensitivity position_weight)

/-- `scale_metric` from `src/transfer_simulator.py` (lines 1–55) on finite
float inputs: `round(value * final_multiplier, 2)`. -/
def scale_metric
    (value from_team_rating to_team_rating from_league_rating
      to_league_rating : ℝ)
    (from_team_pos_avg to_team_pos_avg from_league_pos_avg to_league_pos_avg :
      Option ℝ)
    (use_position_scaling : Bool) (rating_sensitivity position_weight : ℝ) :
    ℝ :=
  round2 (value *
    scale_multiplier from_team_rating to_team_rating from_league_rating
      to_league_rating from_team_pos_avg to_team_pos_avg from_league_pos_avg
      to_league_pos_avg use_position_scaling rating_sensitivity
      position_weight)

/-- Nonnegativity of an optional float (the data-model domain: performance
metrics and their cohort averages are non-negative). -/
def optNonneg : Option ℝ → Prop
  | none => True
  | some x => 0 ≤ x

/-- Modelled from the spec's words for the position-pair guard ("where both
from/to averages exist and from-average > 0"): existence instead of Python
truthiness on the to-average. Compared with `posPairCond`, the guard the
source actually evaluates. -/
def posPairCondSpec (fromAvg toAvg : Option ℝ) : Prop :=
  fromAvg.isSome ∧ toAvg.isSome ∧ pyPos fromAvg

/-- `contextEffect` with the spec-worded guard. -/
def contextEffectSpec
    (from_team_pos_avg to_team_pos_avg from_league_pos_avg to_league_pos_avg :
      Option ℝ) (position_weight : ℝ) : ℝ :=
  let context_effect : ℝ := 1.0
  let context_effect :=
    if posPairCondSpec from_team_pos_avg to_team_pos_avg then
      context_effect *
        posPairFactor from_team_pos_avg to_team_pos_avg position_weight
    else context_effect
  let context_effect :=
    if posPairCondSpec from_league_pos_avg to_league_pos_avg then
      context_effect *
        posPairFactor from_league_pos_avg to_league_pos_avg position_weight
    else context_effect
  context_effect

/-- `scale_metric` as the claim C7 words it: the context guard asks only
that both averages exist and the from-average is positive. -/
def scale_metric_spec_C7
    (value from_team_rating to_team_rating from_league_rating
      to_league_rating : ℝ)
    (from_team_pos_avg to_team_pos_avg from_league_pos_avg to_league_pos_avg :
      Option ℝ)
    (use_position_scaling : Bool) (rating_sensitivity position_weight : ℝ) :
    ℝ :=
  let team_ratio :=
    if from_team_rating > 0 then to_team_rating / from_team_rating else 1
  let league_ratio :=
    if to_league_rating > 0 then from_league_rating / to_league_rating else 1
  let base_multiplier :=
    team_ratio ^ rating_sensitivity * league_ratio ^ rating_sensitivity
  let final_multiplier :=
    if use_position_scaling then
      base_multiplier *
        contextEffectSpec from_team_pos_avg to_team_pos_avg
          from_league_pos_avg to_league_pos_avg position_weight
    else base_multiplier
  round2 (value * clampMult final_multiplier)

end

/-! ### String containment and league-rating resolution

`simulate_player_transfer` (lines 87–97) resolves league ratings by iterating
over the ordered league-ratings mapping and testing Python's
`league_name in player_league` substring containment, overwriting the
accumulator on every hit and defaulting to 50. -/

/-- `leadsWith needle hay` is true when `needle` is an initial segment of
`hay` (character lists). -/
def leadsWith : List Char → List Char → Bool
  | [], _ => true
  | _ :: _, [] => false
  | a :: as, b :: bs => a == b && leadsWith as bs

/-- `listContains needle hay` is true when `needle` occurs as a contiguous
run inside `hay` — Python's `needle in hay` on strings. -/
def listContains (needle : List Char) : List Char → Bool
  | [] => leadsWith needle []
  | c :: rest => leadsWith needle (c :: rest) || listContains needle rest

/-- Python's `needle in hay` for strings. -/
def strContains (hay needle : String) : Bool :=
  listContains needle.data hay.data

/-- League-rating resolution as the source performs it (lines 87–97): walk
the mapping in order, keep the rating of every league name contained in the
player's league string (so the LAST hit survives), default 50. -/
def resolve_league_rating {α : Type} [OfNat α 50]
    (league_ratings : List (String × α)) (league : String) : α :=
  (league_ratings.foldl
    (fun acc p => if strContains league p.1 then some p.2 else acc)
    (none : Option α)).getD 50

/-- Modelled from the spec's words ("the rating of the first stored league
name that appears as a substring"): FIRST hit wins. Compared against
`resolve_league_rating`, the behaviour of the source. -/
def resolve_league_rating_first {α : Type} [OfNat α 50]
    (league_ratings : List (String × α)) (league : String) : α :=
  ((league_ratings.find? fun p => strContains league p.1).map Prod.snd).getD 50

/-! ### Python float semantics (NaN-aware embedding)

pandas `Series.mean()` over an empty cohort yields NaN, and NaN then flows
through `scale_metric`'s truthiness tests, arithmetic and `max`/`min`. The
claims about empty cohorts and null metric values are decided by this
embedding. -/

/-- A float value as Python manipulates it: NaN or a real number. -/
inductive PyFloat : Type
  | nan : PyFloat
  | fin : ℝ → PyFloat

noncomputable section
open Classical

/-- Python `a < b` on floats: any comparison with NaN is false. -/
def pyLt : PyFloat → PyFloat → Prop
  | .fin x, .fin y => x < y
  | _, _ => False

/-- Python `min(a, b)`: returns `b` only when `b < a`, so `min(nan, x) = nan`
and `min(x, nan) = x`. -/
def pyMin (a b : PyFloat) : PyFloat := if pyLt b a then b else a

/-- Python `max(a, b)`: returns `b` only when `a < b`, so `max(x, nan) = x`. -/
def pyMax (a b : PyFloat) : PyFloat := if pyLt a b then b else a

/-- Float multiplication; NaN propagates. -/
def pyMul : PyFloat → PyFloat → PyFloat
  | .nan, _ => .nan
  | _, .nan => .nan
  | .fin x, .fin y => .fin (x * y)

/-- Float division; NaN propagates (division by zero never occurs on the
guarded paths of the source). -/
def pyDiv : PyFloat → PyFloat → PyFloat
  | .nan, _ => .nan
  | _, .nan => .nan
  | .fin x, .fin y => .fin (x / y)

/-- Float `x ** w` with a real exponent; NaN propagates. -/
def pyPowR : PyFloat → ℝ → PyFloat
  | .nan, _ => .nan
  | .fin x, w => .fin (x ^ w)

/-- Python truthiness of an optional float: `None` and `0.0` are falsy;
NaN is truthy. -/
def truthyF : Option PyFloat → Prop
  | none => False
  | some .nan => True
  | some (.fin x) => x ≠ 0

/-- Python `o > 0` for an optional float: false on NaN (all NaN comparisons
are false). -/
def posF : Option PyFloat → Prop
  | some (.fin x) => 0 < x
  | _ => False

/-- The position-pair guard of `scale_metric`, NaN-aware. -/
def condF (fromAvg toAvg : Option PyFloat) : Prop :=
  truthyF fromAvg ∧ truthyF toAvg ∧ posF fromAvg

/-- Python `round(x, 2)` on floats: NaN rounds to NaN. -/
def round2F : PyFloat → PyFloat
  | .nan => .nan
  | .fin x => .fin (round2 x)

/-- `scale_metric` on float inputs with Python NaN semantics. Rating inputs
are reals (they come from rating tables); the metric value and the four
position averages may be NaN. -/
def scale_metricF (value : PyFloat)
    (from_team_rating to_team_rating from_league_rating to_league_rating : ℝ)
    (from_team_pos_avg to_team_pos_avg from_league_pos_avg to_league_pos_avg :
      Option PyFloat)
    (use_position_scaling : Bool) (rating_sensitivity position_weight : ℝ) :
    PyFloat :=
  let team_ratio :=
    if from_team_rating > 0 then to_team_rating / from_team_rating else 1
  let league_ratio :=
    if to_league_rating > 0 then from_league_rating / to_league_rating else 1
  let base_multiplier : ℝ :=
    team_ratio ^ rating_sensitivity * league_ratio ^ rating_sensitivity
  let final_multiplier :=
    if use_position_scaling then
      let context_effect : PyFloat := .fin 1.0
      let context_effect :=
        if condF from_team_pos_avg to_team_pos_avg then
          pyMul context_effect
            (pyPowR
              (pyDiv (to_team_pos_avg.getD .nan) (from_team_pos_avg.getD .nan))
              position_weight)
        else context_effect
      let context_effect :=
        if condF from_league_pos_avg to_league_pos_avg then
          pyMul context_effect
            (pyPowR
              (pyDiv (to_league_pos_avg.getD .nan)
                (from_league_pos_avg.getD .nan))
              position_weight)
        else context_effect
      pyMul (.fin base_multiplier) context_effect
    else .fin base_multiplier
  let clamped := pyMax (.fin 0.3) (pyMin final_multiplier (.fin 3.0))
  round2F (pyMul value clamped)

/-- pandas `Series.mean()`: skips NaN entries; over an empty (or all-NaN)
column the mean is NaN — not `None`. -/
def pandasMean (l : List PyFloat) : PyFloat :=
  let xs := l.filterMap fun v =>
    match v with
    | .fin x => some x
    | .nan => none
  if xs.isEmpty then .nan else .fin (xs.sum / (xs.length : ℝ))

/-! ### The orchestrator `simulate_player_transfer` (lines 58–193) -/

/-- One row of the 2025-26 player table. `positionGroup` is `none` when the
cell is missing; `stats` maps present stat columns to float values (a null
cell is `PyFloat.nan`, exactly as pandas loads it). -/
structure PlayerRow where
  player : String
  parentTeam : String
  league : String
  positionGroup : Option String
  stats : List (String × PyFloat)

/-- `player_row.get(metric, None)`: `none` when the label is absent. -/
def rowGet (r : PlayerRow) (metric : String) : Option PyFloat :=
  (r.stats.find? fun p => p.1 == metric).map Prod.snd

/-- `team_ratings_df.set_index("contestantName").get("currentRating", {})
.get(team, 50)`: first row with that team name, else 50. -/
def lookupTeamRating (team_ratings : List (String × ℝ)) (team : String) : ℝ :=
  ((team_ratings.find? fun p => p.1 == team).map Prod.snd).getD 50

/-- Python truthiness of the optional position group: `None` and the empty
string are falsy. -/
def pyStrTruthy : Option String → Prop
  | none => False
  | some s => s ≠ ""

/-- The metric column of a filtered row set (`df[...][metric]`). -/
def metricColumn (rows : List PlayerRow) (metric : String) : List PyFloat :=
  rows.map fun r => (rowGet r metric).getD .nan

/-- The structured comparison dictionary built at lines 174–191. -/
structure SimResult where
  currentTeam : String
  currentLeague : String
  currentTeamRating : ℝ
  currentLeagueRating : ℝ
  potentialTeam : String
  potentialLeague : String
  potentialTeamRating : ℝ
  potentialLeagueRating : ℝ
  currentMetrics : List (String × Option PyFloat)
  scaledMetrics : List (String × Option PyFloat)
  posGroupAverages : Option (List (String ×
    (Option PyFloat × Option PyFloat × Option PyFloat × Option PyFloat)))

/-- `simulate_player_transfer` returns either the not-found message string
(line 70) or the comparison structure. -/
inductive SimOutcome
  | notFound (msg : String)
  | ok (result : SimResult)

/-- `simulate_player_transfer` from `src/transfer_simulator.py`
(lines 58–193). The two league resolutions share one loop in the source;
the accumulators are independent, so they are transliterated as two calls
to `resolve_league_rating`. -/
def simulate_player_transfer (player_name : String)
    (df_2025_26 : List PlayerRow) (metrics : List String)
    (potential_team potential_league : String)
    (team_ratings : List (String × ℝ)) (league_ratings : List (String × ℝ))
    (apply_position_group_scaling : Bool) : SimOutcome :=
  match df_2025_26.find? (fun r => r.player == player_name) with
  | none =>
    .notFound ("Player " ++ player_name ++ " not found in 2025-26 data.")
  | some player_row =>
    let current_team := player_row.parentTeam
    let current_league := player_row.league
    let position_group := player_row.positionGroup
    let cur_team_rating := lookupTeamRating team_ratings current_team
    let pot_team_rating := lookupTeamRating team_ratings potential_team
    let cur_league_rating := resolve_league_rating league_ratings current_league
    let pot_league_rating :=
      resolve_league_rating league_ratings potential_league
    let results := metrics.map fun metric =>
      match rowGet player_row metric with
      | none =>
        (metric, (none : Option PyFloat),
          ((none : Option PyFloat), (none : Option PyFloat),
            (none : Option PyFloat), (none : Option PyFloat)))
      | some value =>
        let avgs :
            Option PyFloat × Option PyFloat × Option PyFloat ×
              Option PyFloat :=
          if apply_position_group_scaling ∧ pyStrTruthy position_group then
            let pg := position_group.getD ""
            (some (pandasMean (metricColumn (df_2025_26.filter fun r =>
                r.parentTeam == current_team && r.positionGroup == some pg)
                metric)),
              some (pandasMean (metricColumn (df_2025_26.filter fun r =>
                r.parentTeam == potential_team && r.positionGroup == some pg)
                metric)),
              some (pandasMean (metricColumn (df_2025_26.filter fun r =>
                r.league == current_league && r.positionGroup == some pg)
                metric)),
              some (pandasMean (metricColumn (df_2025_26.filter fun r =>
                r.league == potential_league && r.positionGroup == some pg)
                metric)))
          else (none, none, none, none)
        let scaled := scale_metricF value cur_team_rating pot_team_rating
          cur_league_rating pot_league_rating avgs.1 avgs.2.1 avgs.2.2.1
          avgs.2.2.2 apply_position_group_scaling 2 0.4
        (metric, some (round2F scaled),
          (avgs.1.map round2F, avgs.2.1.map round2F, avgs.2.2.1.map round2F,
            avgs.2.2.2.map round2F))
    .ok
      { currentTeam := current_team
        currentLeague := current_league
        currentTeamRating := cur_team_rating
        currentLeagueRating := cur_league_rating
        potentialTeam := potential_team
        potentialLeague := potential_league
        potentialTeamRating := pot_team_rating
        potentialLeagueRating := pot_league_rating
        currentMetrics := metrics.map fun m => (m, rowGet player_row m)
        scaledMetrics := results.map fun t => (t.1, t.2.1)
        posGroupAverages :=
          if apply_position_group_scaling then
            some (results.map fun t => (t.1, t.2.2))
          else none }

end

/-! ## Helper lemmas -/

section Helpers
open Classical

lemma round2_int_div100 (n : ℤ) : round2 ((n : ℝ) / 100) = (n : ℝ) / 100 := by
  unfold round2
  rw [mul_div_cancel₀ _ (by norm_num : (100 : ℝ) ≠ 0), round_intCast]

lemma round2_fixed {x : ℝ} (n : ℤ) (hx : x = (n : ℝ) / 100) : round2 x = x := by
  rw [hx, round2_int_div100]

lemma round2_mono {x y : ℝ} (h : x ≤ y) : round2 x ≤ round2 y := by
  unfold round2
  have h2 : round (100 * x) ≤ round (100 * y) := by
    rw [round_eq, round_eq]
    exact Int.floor_le_floor (by linarith)
  exact (div_le_div_right (by norm_num : (0 : ℝ) < 100)).mpr (Int.cast_le.mpr h2)

lemma clampMult_lower (x : ℝ) : 0.3 ≤ clampMult x := le_max_left _ _

lemma clampMult_upper (x : ℝ) : clampMult x ≤ 3 := by
  unfold clampMult
  exact max_le (by norm_num) ((min_le_right _ _).trans (by norm_num))

lemma clampMult_mono {x y : ℝ} (h : x ≤ y) : clampMult x ≤ clampMult y :=
  max_le_max le_rfl (min_le_min h le_rfl)

lemma raw_multiplier_def (t1 t2 l1 l2 : ℝ) (pa pb pc pd : Option ℝ) (b : Bool)
    (s w : ℝ) :
    raw_multiplier t1 t2 l1 l2 pa pb pc pd b s w =
      if b then
        ((if t1 > 0 then t2 / t1 else 1) ^ s *
            (if l2 > 0 then l1 / l2 else 1) ^ s) *
          contextEffect pa pb pc pd w
      else
        (if t1 > 0 then t2 / t1 else 1) ^ s *
          (if l2 > 0 then l1 / l2 else 1) ^ s := rfl

lemma contextEffect_def (pa pb pc pd : Option ℝ) (w : ℝ) :
    contextEffect pa pb pc pd w =
      if posPairCond pc pd then
        (if posPairCond pa pb then 1.0 * posPairFactor pa pb w else 1.0) *
          posPairFactor pc pd w
      else
        if posPairCond pa pb then 1.0 * posPairFactor pa pb w else 1.0 := rfl

lemma scale_metric_def
    (v t1 t2 l1 l2 : ℝ) (pa pb pc pd : Option ℝ) (b : Bool) (s w : ℝ) :
    scale_metric v t1 t2 l1 l2 pa pb pc pd b s w =
      round2 (v * clampMult (raw_multiplier t1 t2 l1 l2 pa pb pc pd b s w)) :=
  rfl

lemma optNonneg_getD {o : Option ℝ} (h : optNonneg o) : 0 ≤ o.getD 0 := by
  cases o with
  | none => simp
  | some x => simpa [optNonneg] using h

lemma posPairFactor_nonneg {pa pb : Option ℝ} (w : ℝ)
    (hcond : posPairCond pa pb) (hb : optNonneg pb) :
    0 ≤ posPairFactor pa pb w := by
  refine Real.rpow_nonneg (div_nonneg (optNonneg_getD hb) ?_) _
  rcases hcond with ⟨_, _, hpos⟩
  cases pa with
  | none => simp [pyPos] at hpos
  | some a => exact le_of_lt (by simpa [pyPos] using hpos)

lemma contextEffect_nonneg {pa pb pc pd : Option ℝ} (w : ℝ)
    (hb : optNonneg pb) (hd : optNonneg pd) :
    0 ≤ contextEffect pa pb pc pd w := by
  rw [contextEffect_def]
  split_ifs with h1 h2 h3
  · exact mul_nonneg
      (mul_nonneg (by norm_num) (posPairFactor_nonneg w h2 hb))
      (posPairFactor_nonneg w h1 hd)
  · exact mul_nonneg (by norm_num) (posPairFactor_nonneg w h1 hd)
  · exact mul_nonneg (by norm_num) (posPairFactor_nonneg w h3 hb)
  · norm_num

lemma raw_multiplier_mono_t2 {t1 t2 t2' l1 l2 s w : ℝ} {pa pb pc pd : Option ℝ}
    {b : Bool} (hs : 0 ≤ s) (ht2 : 0 ≤ t2) (h12 : t2 ≤ t2') (hl1 : 0 ≤ l1)
    (hpb : optNonneg pb) (hpd : optNonneg pd) :
    raw_multiplier t1 t2 l1 l2 pa pb pc pd b s w ≤
      raw_multiplier t1 t2' l1 l2 pa pb pc pd b s w := by
  rw [raw_multiplier_def, raw_multiplier_def]
  have hL0 : (0 : ℝ) ≤ (if l2 > 0 then l1 / l2 else 1) := by
    split_ifs with h
    · exact div_nonneg hl1 h.le
    · norm_num
  have hR0 : (0 : ℝ) ≤ (if t1 > 0 then t2 / t1 else 1) := by
    split_ifs with h
    · exact div_nonneg ht2 h.le
    · norm_num
  have hRR : (if t1 > 0 then t2 / t1 else 1) ≤
      (if t1 > 0 then t2' / t1 else 1) := by
    split_ifs with h
    · exact (div_le_div_iff_of_pos_right h).mpr h12
    · exact le_rfl
  have hbase :
      (if t1 > 0 then t2 / t1 else 1) ^ s *
          (if l2 > 0 then l1 / l2 else 1) ^ s ≤
        (if t1 > 0 then t2' / t1 else 1) ^ s *
          (if l2 > 0 then l1 / l2 else 1) ^ s :=
    mul_le_mul_of_nonneg_right (Real.rpow_le_rpow hR0 hRR hs)
      (Real.rpow_nonneg hL0 s)
  cases b with
  | false => simpa using hbase
  | true =>
    simpa using
      mul_le_mul_of_nonneg_right hbase (contextEffect_nonneg w hpb hpd)

lemma raw_multiplier_anti_l2 {t1 t2 l1 l2 l2' s w : ℝ} {pa pb pc pd : Option ℝ}
    {b : Bool} (hs : 0 ≤ s) (ht2 : 0 ≤ t2) (hl1 : 0 ≤ l1) (hl2 : 0 < l2)
    (h12 : l2 ≤ l2') (hpb : optNonneg pb) (hpd : optNonneg pd) :
    raw_multiplier t1 t2 l1 l2' pa pb pc pd b s w ≤
      raw_multiplier t1 t2 l1 l2 pa pb pc pd b s w := by
  rw [raw_multiplier_def, raw_multiplier_def]
  have hl2' : (0 : ℝ) < l2' := lt_of_lt_of_le hl2 h12
  rw [if_pos (show l2 > 0 from hl2), if_pos (show l2' > 0 from hl2')]
  have hR0 : (0 : ℝ) ≤ (if t1 > 0 then t2 / t1 else 1) := by
    split_ifs with h
    · exact div_nonneg ht2 h.le
    · norm_num
  have hL0' : (0 : ℝ) ≤ l1 / l2' := div_nonneg hl1 hl2'.le
  have hLL : l1 / l2' ≤ l1 / l2 := div_le_div_of_nonneg_left hl1 hl2 h12
  have hbase :
      (if t1 > 0 then t2 / t1 else 1) ^ s * (l1 / l2') ^ s ≤
        (if t1 > 0 then t2 / t1 else 1) ^ s * (l1 / l2) ^ s :=
    mul_le_mul_of_nonneg_left (Real.rpow_le_rpow hL0' hLL hs)
      (Real.rpow_nonneg hR0 s)
  cases b with
  | false => simpa using hbase
  | true =>
    simpa using
      mul_le_mul_of_nonneg_right hbase (contextEffect_nonneg w hpb hpd)

lemma raw_team_pair {t1 t2 l1 l2 a bv s w : ℝ} {pc pd : Option ℝ}
    (ha : 0 < a) (hb : bv ≠ 0) :
    raw_multiplier t1 t2 l1 l2 (some a) (some bv) pc pd true s w =
      raw_multiplier t1 t2 l1 l2 none none pc pd true s w * (bv / a) ^ w := by
  rw [raw_multiplier_def, raw_multiplier_def]
  simp only [eq_self_iff_true, if_true]
  rw [contextEffect_def, contextEffect_def]
  have hcond : posPairCond (some a) (some bv) :=
    ⟨ne_of_gt ha, hb, ha⟩
  have hcond2 : ¬ posPairCond (none : Option ℝ) (none : Option ℝ) :=
    fun h => h.1
  simp only [if_pos hcond, if_neg hcond2]
  simp only [posPairFactor, Option.getD_some]
  split_ifs <;> ring

lemma raw_league_pair {t1 t2 l1 l2 c dv s w : ℝ} {pa pb : Option ℝ}
    (hc : 0 < c) (hd : dv ≠ 0) :
    raw_multiplier t1 t2 l1 l2 pa pb (some c) (some dv) true s w =
      raw_multiplier t1 t2 l1 l2 pa pb none none true s w * (dv / c) ^ w := by
  rw [raw_multiplier_def, raw_multiplier_def]
  simp only [eq_self_iff_true, if_true]
  rw [contextEffect_def, contextEffect_def]
  have hcond : posPairCond (some c) (some dv) :=
    ⟨ne_of_gt hc, hd, hc⟩
  have hcond2 : ¬ posPairCond (none : Option ℝ) (none : Option ℝ) :=
    fun h => h.1
  simp only [if_pos hcond, if_neg hcond2]
  simp only [posPairFactor, Option.getD_some]
  split_ifs <;> ring

lemma raw_team_skip0 (t1 t2 l1 l2 a s w : ℝ) (pc pd : Option ℝ) :
    raw_multiplier t1 t2 l1 l2 (some a) (some 0) pc pd true s w =
      raw_multiplier t1 t2 l1 l2 none none pc pd true s w := by
  rw [raw_multiplier_def, raw_multiplier_def]
  have h1 : ¬ posPairCond (some a) (some (0 : ℝ)) := fun h => h.2.1 rfl
  have h2 : ¬ posPairCond (none : Option ℝ) (none : Option ℝ) :=
    fun h => h.1
  rw [contextEffect_def, contextEffect_def]
  simp only [if_neg h1, if_neg h2]

lemma raw_league_skip0 (t1 t2 l1 l2 c s w : ℝ) (pa pb : Option ℝ) :
    raw_multiplier t1 t2 l1 l2 pa pb (some c) (some 0) true s w =
      raw_multiplier t1 t2 l1 l2 pa pb none none true s w := by
  rw [raw_multiplier_def, raw_multiplier_def]
  have h1 : ¬ posPairCond (some c) (some (0 : ℝ)) := fun h => h.2.1 rfl
  have h2 : ¬ posPairCond (none : Option ℝ) (none : Option ℝ) :=
    fun h => h.1
  rw [contextEffect_def, contextEffect_def]
  simp only [if_neg h1, if_neg h2]

lemma leadsWith_iff (n h : List Char) :
    leadsWith n h = true ↔ ∃ t, h = n ++ t := by
  induction n generalizing h with
  | nil =>
    constructor
    · intro _; exact ⟨h, rfl⟩
    · intro _; rfl
  | cons a as ih =>
    cases h with
    | nil =>
      simp [leadsWith]
    | cons b bs =>
      simp only [leadsWith, Bool.and_eq_true, beq_iff_eq, ih,
        List.cons_append]
      constructor
      · rintro ⟨rfl, t, rfl⟩
        exact ⟨t, rfl⟩
      · rintro ⟨t, ht⟩
        injection ht with h1 h2
        exact ⟨h1.symm, t, h2⟩

lemma listContains_iff (n h : List Char) :
    listContains n h = true ↔ ∃ pre post, h = pre ++ n ++ post := by
  induction h with
  | nil =>
    simp only [listContains, leadsWith_iff]
    constructor
    · rintro ⟨t, ht⟩
      rcases List.append_eq_nil.mp ht.symm with ⟨hn, htnil⟩
      exact ⟨[], [], by simp [hn]⟩
    · rintro ⟨pre, post, hp⟩
      rcases List.append_eq_nil.mp hp.symm with ⟨h1, h2⟩
      rcases List.append_eq_nil.mp h1 with ⟨h3, h4⟩
      exact ⟨[], by simp [h4, h2]⟩
  | cons c rest ih =>
    simp only [listContains, Bool.or_eq_true, leadsWith_iff, ih]
    constructor
    · rintro (⟨t, ht⟩ | ⟨pre, post, hp⟩)
      · exact ⟨[], t, by simpa using ht⟩
      · exact ⟨c :: pre, post, by simp [hp]⟩
    · rintro ⟨pre, post, hp⟩
      cases pre with
      | nil => exact Or.inl ⟨post, by simpa using hp⟩
      | cons x xs =>
        injection hp with h1 h2
        exact Or.inr ⟨xs, post, h2⟩

lemma strContains_iff (hay needle : String) :
    strContains hay needle = true ↔
      ∃ pre post : List Char, hay.data = pre ++ needle.data ++ post :=
  listContains_iff needle.data hay.data

lemma resolve_foldl {α : Type} (league : String) (m : List (String × α))
    (acc : Option α) :
    m.foldl (fun acc p => if strContains league p.1 then some p.2 else acc)
        acc =
      (m.reverse.find? fun p => strContains league p.1).elim acc
        (fun pr => some pr.2) := by
  induction m generalizing acc with
  | nil => rfl
  | cons p m ih =>
    simp only [List.foldl_cons, List.reverse_cons]
    rw [ih, List.find?_append]
    cases hfind : m.reverse.find? (fun p => strContains league p.1) with
    | some q => simp [Option.or]
    | none =>
      simp only [Option.or, Option.elim]
      cases hc : strContains league p.1 with
      | true => simp [List.find?, hc]
      | false => simp [List.find?, hc]

lemma scale_metricF_nan (ftr ttr flr tlr : ℝ) (fa ta fla tla : Option PyFloat)
    (b : Bool) (s w : ℝ) :
    scale_metricF PyFloat.nan ftr ttr flr tlr fa ta fla tla b s w =
      PyFloat.nan := by
  simp [scale_metricF, pyMul, round2F]

end Helpers

/-! ## Claims -/

section Claims
open Classical

/-- C1: for positive finite rating inputs, the final multiplier of
`scale_metric` is clamped to `[0.3, 3.0]`, and for `value ≥ 0` the returned
value lies between `round(0.3 * value, 2)` and `round(3.0 * value, 2)`. -/
theorem C1_multiplier_clamped (v t1 t2 l1 l2 s w : ℝ)
    (pa pb pc pd : Option ℝ) (b : Bool) (hv : 0 ≤ v)
    (ht1 : 0 < t1) (ht2 : 0 < t2) (hl1 : 0 < l1) (hl2 : 0 < l2) :
    (0.3 ≤ scale_multiplier t1 t2 l1 l2 pa pb pc pd b s w ∧
      scale_multiplier t1 t2 l1 l2 pa pb pc pd b s w ≤ 3) ∧
    round2 (0.3 * v) ≤ scale_metric v t1 t2 l1 l2 pa pb pc pd b s w ∧
    scale_metric v t1 t2 l1 l2 pa pb pc pd b s w ≤ round2 (3 * v) := by
  have hlow : (0.3 : ℝ) ≤ scale_multiplier t1 t2 l1 l2 pa pb pc pd b s w :=
    clampMult_lower _
  have hhigh : scale_multiplier t1 t2 l1 l2 pa pb pc pd b s w ≤ 3 :=
    clampMult_upper _
  refine ⟨⟨hlow, hhigh⟩, ?_, ?_⟩
  · apply round2_mono
    calc 0.3 * v = v * 0.3 := mul_comm _ _
      _ ≤ v * scale_multiplier t1 t2 l1 l2 pa pb pc pd b s w :=
        mul_le_mul_of_nonneg_left hlow hv
  · apply round2_mono
    calc v * scale_multiplier t1 t2 l1 l2 pa pb pc pd b s w ≤ v * 3 :=
        mul_le_mul_of_nonneg_left hhigh hv
      _ = 3 * v := mul_comm _ _

/-- C1 witness: the bounds at the spec's own end-to-end example (value 10,
team ratings 60 → 90, league ratings 70 → 50). -/
theorem C1_multiplier_clamped_witness :
    (0.3 ≤ scale_multiplier 60 90 70 50 none none none none false 2 (2/5) ∧
      scale_multiplier 60 90 70 50 none none none none false 2 (2/5) ≤ 3) ∧
    round2 (0.3 * 10) ≤
      scale_metric 10 60 90 70 50 none none none none false 2 (2/5) ∧
    scale_metric 10 60 90 70 50 none none none none false 2 (2/5) ≤
      round2 (3 * 10) :=
  C1_multiplier_clamped 10 60 90 70 50 2 (2/5) none none none none false
    (by norm_num) (by norm_num) (by norm_num) (by norm_num) (by norm_num)

/-- C2: with identical team ratings and identical league ratings (all `r`)
and no position-scaling effect, the multiplier is exactly 1 and the result
is exactly `round(v, 2)`. -/
theorem C2_identity_ratings (v r s w : ℝ) (b : Bool) (hv : 0 ≤ v) :
    scale_multiplier r r r r none none none none b s w = 1 ∧
    scale_metric v r r r r none none none none b s w = round2 v := by
  have hraw : raw_multiplier r r r r none none none none b s w = 1 := by
    rw [raw_multiplier_def]
    have hr : (if r > 0 then r / r else 1) = 1 := by
      split_ifs with h
      · exact div_self (ne_of_gt h)
      · rfl
    simp only [hr, Real.one_rpow, one_mul,
      contextEffect_def, posPairCond, pyTruthy]
    cases b <;> norm_num
  have hmul : scale_multiplier r r r r none none none none b s w = 1 := by
    show clampMult _ = 1
    rw [hraw]
    unfold clampMult
    rw [min_eq_left (by norm_num), max_eq_right (by norm_num)]
  refine ⟨hmul, ?_⟩
  rw [scale_metric_def]
  show round2 (v * clampMult _) = round2 v
  rw [show clampMult (raw_multiplier r r r r none none none none b s w) =
    scale_multiplier r r r r none none none none b s w from rfl, hmul, mul_one]

/-- C2 witness: value 7, all four ratings 50, defaults. -/
theorem C2_identity_ratings_witness :
    0 ≤ (7 : ℝ) ∧
    scale_metric 7 50 50 50 50 none none none none false 2 (2/5) = round2 7 :=
  ⟨by norm_num,
    (C2_identity_ratings 7 50 2 (2/5) false (by norm_num)).2⟩

/-- C10: with `use_position_scaling = false`, the result of `scale_metric`
does not depend on any of the four position-average arguments. -/
theorem C10_noninterference (v t1 t2 l1 l2 s w : ℝ)
    (pa pb pc pd qa qb qc qd : Option ℝ) :
    scale_metric v t1 t2 l1 l2 pa pb pc pd false s w =
      scale_metric v t1 t2 l1 l2 qa qb qc qd false s w := rfl

/-- C3: for `sensitivity > 0`, increasing the destination team rating while
holding everything else fixed never decreases the scaled value. Stated over
the data-model domain: non-negative destination team ratings, source league
rating and metric value, and non-negative position averages on the
destination sides. -/
theorem C3_monotone_dest_team (v t1 t2 t2' l1 l2 s w : ℝ)
    (pa pb pc pd : Option ℝ) (b : Bool) (hs : 0 < s) (hv : 0 ≤ v)
    (ht2 : 0 ≤ t2) (h12 : t2 ≤ t2') (hl1 : 0 ≤ l1)
    (hpb : optNonneg pb) (hpd : optNonneg pd) :
    scale_metric v t1 t2 l1 l2 pa pb pc pd b s w ≤
      scale_metric v t1 t2' l1 l2 pa pb pc pd b s w := by
  rw [scale_metric_def, scale_metric_def]
  exact round2_mono (mul_le_mul_of_nonneg_left
    (clampMult_mono (raw_multiplier_mono_t2 hs.le ht2 h12 hl1 hpb hpd)) hv)

/-- C3 witness: destination team rating 50 → 60, everything else fixed. -/
theorem C3_monotone_dest_team_witness :
    0 < (2 : ℝ) ∧ (50 : ℝ) ≤ 60 ∧
    scale_metric 1 50 50 50 50 none none none none false 2 (2/5) ≤
      scale_metric 1 50 60 50 50 none none none none false 2 (2/5) :=
  ⟨by norm_num, by norm_num,
    C3_monotone_dest_team 1 50 50 60 50 50 2 (2/5) none none none none false
      (by norm_num) (by norm_num) (by norm_num) (by norm_num) (by norm_num)
      trivial trivial⟩

/-- C4 counterexample: increasing the destination league rating from 0 to
1/2 (crossing the fallback boundary, with source league rating 70)
INCREASES the output from 10 to 30: at rating 0 the fallback makes the
league ratio 1, while at rating 1/2 the ratio is 140, amplified and clamped
to the upper bound 3. -/
theorem C4_counterexample :
    scale_metric 10 50 50 70 0 none none none none false 2 (2/5) <
      scale_metric 10 50 50 70 (1/2) none none none none false 2 (2/5) := by
  have h1 : scale_metric 10 50 50 70 0 none none none none false 2 (2/5)
      = 10 := by
    rw [scale_metric_def, raw_multiplier_def]
    norm_num [Real.one_rpow, clampMult]
    exact round2_fixed 1000 (by norm_num)
  have h2 : scale_metric 10 50 50 70 (1/2) none none none none false 2 (2/5)
      = 30 := by
    rw [scale_metric_def, raw_multiplier_def]
    norm_num [Real.one_rpow, Real.rpow_two, clampMult]
    exact round2_fixed 3000 (by norm_num)
  rw [h1, h2]
  norm_num

/-- C4 amended: increasing the destination league rating never increases the
scaled value as long as the destination league rating stays strictly
positive (on the `≤ 0` side of the fallback the output is constant; only
crossing the boundary can increase it, as `C4_counterexample` shows).
Stated over the data-model domain: non-negative metric value, destination
team rating, source league rating and destination-side position averages. -/
theorem C4_amended_monotone_dest_league (v t1 t2 l1 l2 l2' s w : ℝ)
    (pa pb pc pd : Option ℝ) (b : Bool) (hs : 0 < s) (hv : 0 ≤ v)
    (ht2 : 0 ≤ t2) (hl1 : 0 ≤ l1) (hl2 : 0 < l2) (h12 : l2 ≤ l2')
    (hpb : optNonneg pb) (hpd : optNonneg pd) :
    scale_metric v t1 t2 l1 l2' pa pb pc pd b s w ≤
      scale_metric v t1 t2 l1 l2 pa pb pc pd b s w := by
  rw [scale_metric_def, scale_metric_def]
  exact round2_mono (mul_le_mul_of_nonneg_left
    (clampMult_mono (raw_multiplier_anti_l2 hs.le ht2 hl1 hl2 h12 hpb hpd))
    hv)

/-- C4 amended witness: destination league rating 50 → 60. -/
theorem C4_amended_monotone_dest_league_witness :
    0 < (2 : ℝ) ∧ 0 < (50 : ℝ) ∧ (50 : ℝ) ≤ 60 ∧
    scale_metric 1 50 50 50 60 none none none none false 2 (2/5) ≤
      scale_metric 1 50 50 50 50 none none none none false 2 (2/5) :=
  ⟨by norm_num, by norm_num, by norm_num,
    C4_amended_monotone_dest_league 1 50 50 50 50 60 2 (2/5)
      none none none none false (by norm_num) (by norm_num) (by norm_num)
      (by norm_num) (by norm_num) (by norm_num) trivial trivial⟩

/-- C7 counterexample: with from-average 2 and to-average 0 (both present,
from-average > 0), the code SKIPS the team-pair ratio (Python truthiness
makes `0.0` falsy) and returns 10, while the claim's reading (ratio applied
even when the to-average is 0) would give multiplier `0 ^ 0.4 = 0`, clamped
to 0.3, hence 3. -/
theorem C7_counterexample :
    scale_metric 10 50 50 50 50 (some 2) (some 0) none none true 2 (2/5)
        = 10 ∧
    scale_metric_spec_C7 10 50 50 50 50 (some 2) (some 0) none none true 2
        (2/5) = 3 := by
  constructor
  · rw [scale_metric_def, raw_multiplier_def]
    norm_num [contextEffect_def, posPairCond, pyTruthy, pyPos,
      Real.one_rpow, clampMult]
    exact round2_fixed 1000 (by norm_num)
  · unfold scale_metric_spec_C7 contextEffectSpec
    norm_num [posPairCondSpec, pyPos, posPairFactor,
      Real.one_rpow, Real.zero_rpow, clampMult]
    exact round2_fixed 300 (by norm_num)

/-- C7 amended: for EACH of the team pair and the league pair, the
`(to_avg / from_avg) ^ positionWeight` factor is multiplied into the
context effect exactly when both averages exist, the from-average is
strictly positive AND the to-average is nonzero; a to-average of 0.0 is
falsy in Python (contrary to the claim's "even when the to-average equals
0"), so that pair is skipped. Conjuncts 1 and 2: relative to the same call
without that pair, the pair's factor appears in the pre-clamp multiplier.
Conjuncts 3 and 4: with a to-average of 0 the pair contributes nothing,
for the team pair and the league pair respectively. -/
theorem C7_amended_pair_factors :
    (∀ (v t1 t2 l1 l2 a bv s w : ℝ) (pc pd : Option ℝ), 0 < a → bv ≠ 0 →
      scale_metric v t1 t2 l1 l2 (some a) (some bv) pc pd true s w =
        round2 (v * clampMult
          (raw_multiplier t1 t2 l1 l2 none none pc pd true s w *
            (bv / a) ^ w))) ∧
    (∀ (v t1 t2 l1 l2 c dv s w : ℝ) (pa pb : Option ℝ), 0 < c → dv ≠ 0 →
      scale_metric v t1 t2 l1 l2 pa pb (some c) (some dv) true s w =
        round2 (v * clampMult
          (raw_multiplier t1 t2 l1 l2 pa pb none none true s w *
            (dv / c) ^ w))) ∧
    (∀ (v t1 t2 l1 l2 a s w : ℝ) (pc pd : Option ℝ),
      scale_metric v t1 t2 l1 l2 (some a) (some 0) pc pd true s w =
        scale_metric v t1 t2 l1 l2 none none pc pd true s w) ∧
    (∀ (v t1 t2 l1 l2 c s w : ℝ) (pa pb : Option ℝ),
      scale_metric v t1 t2 l1 l2 pa pb (some c) (some 0) true s w =
        scale_metric v t1 t2 l1 l2 pa pb none none true s w) := by
  refine ⟨?_, ?_, ?_, ?_⟩
  · intro v t1 t2 l1 l2 a bv s w pc pd ha hb
    rw [scale_metric_def, raw_team_pair ha hb]
  · intro v t1 t2 l1 l2 c dv s w pa pb hc hd
    rw [scale_metric_def, raw_league_pair hc hd]
  · intro v t1 t2 l1 l2 a s w pc pd
    rw [scale_metric_def, scale_metric_def, raw_team_skip0]
  · intro v t1 t2 l1 l2 c s w pa pb
    rw [scale_metric_def, scale_metric_def, raw_league_skip0]

/-- C7 amended witness: all four conjuncts applied concretely — the team
pair and the league pair each with from-average 2 and to-average 1 (factor
applied), and each with to-average 0 (pair skipped). -/
theorem C7_amended_pair_factors_witness :
    0 < (2 : ℝ) ∧ (1 : ℝ) ≠ 0 ∧
    scale_metric 10 50 50 50 50 (some 2) (some 1) none none true 2 (2/5) =
      round2 (10 * clampMult
        (raw_multiplier 50 50 50 50 none none none none true 2 (2/5) *
          ((1 : ℝ) / 2) ^ ((2 : ℝ)/5))) ∧
    scale_metric 10 50 50 50 50 none none (some 2) (some 1) true 2 (2/5) =
      round2 (10 * clampMult
        (raw_multiplier 50 50 50 50 none none none none true 2 (2/5) *
          ((1 : ℝ) / 2) ^ ((2 : ℝ)/5))) ∧
    scale_metric 10 50 50 50 50 (some 2) (some 0) none none true 2 (2/5) =
      scale_metric 10 50 50 50 50 none none none none true 2 (2/5) ∧
    scale_metric 10 50 50 50 50 none none (some 2) (some 0) true 2 (2/5) =
      scale_metric 10 50 50 50 50 none none none none true 2 (2/5) :=
  ⟨by norm_num, by norm_num,
    C7_amended_pair_factors.1 10 50 50 50 50 2 1 2 (2/5) none none
      (by norm_num) (by norm_num),
    C7_amended_pair_factors.2.1 10 50 50 50 50 2 1 2 (2/5) none none
      (by norm_num) (by norm_num),
    C7_amended_pair_factors.2.2.1 10 50 50 50 50 2 2 (2/5) none none,
    C7_amended_pair_factors.2.2.2 10 50 50 50 50 2 2 (2/5) none none⟩

/-- C5 counterexample: with the ordered mapping `[("a", 10), ("b", 20)]` and
player league string `"ab"`, BOTH stored names are substrings; the claim
(first match, as `resolve_league_rating_first` formalises it) gives 10, but
the source loop keeps overwriting, so the LAST match wins and the code
resolves 20. -/
theorem C5_counterexample :
    resolve_league_rating [("a", (10 : ℚ)), ("b", 20)] "ab" = 20 ∧
    resolve_league_rating_first [("a", (10 : ℚ)), ("b", 20)] "ab" = 10 :=
  ⟨by decide, by decide⟩

/-- C5 amended: resolution uses substring containment, but the resolved
rating is that of the LAST stored league name (in mapping order) occurring
as a substring of the player's league string, with neutral default 50 when
none matches. First conjunct: the resolver equals the last (first-in-reverse)
match with default 50. Second conjunct: `strContains` really is substring
containment. -/
theorem C5_amended_last_match :
    (∀ (m : List (String × ℚ)) (league : String),
      resolve_league_rating m league =
        (((m.reverse.find? fun p => strContains league p.1).map
          Prod.snd).getD 50)) ∧
    (∀ hay needle : String, strContains hay needle = true ↔
      ∃ pre post : List Char, hay.data = pre ++ needle.data ++ post) := by
  constructor
  · intro m league
    unfold resolve_league_rating
    rw [resolve_foldl]
    cases hfind : m.reverse.find? (fun p => strContains league p.1) with
    | some q => simp
    | none => simp
  · exact strContains_iff

/-- C9: when no row's player name equals the requested name, the
orchestrator immediately returns the distinguishable `notFound` outcome with
the not-found message, and in particular is never an `ok` result (so no
context blocks, ratings or scaled metrics are produced). -/
theorem C9_player_not_found (player_name : String) (df : List PlayerRow)
    (metrics : List String) (pt pl : String)
    (tr lr : List (String × ℝ)) (flag : Bool)
    (h : ∀ r ∈ df, r.player ≠ player_name) :
    simulate_player_transfer player_name df metrics pt pl tr lr flag =
      SimOutcome.notFound
        ("Player " ++ player_name ++ " not found in 2025-26 data.") ∧
    ∀ res : SimResult,
      simulate_player_transfer player_name df metrics pt pl tr lr flag ≠
        SimOutcome.ok res := by
  have hf : df.find? (fun r => r.player == player_name) = none :=
    List.find?_eq_none.mpr fun x hx => by
      simpa [beq_iff_eq] using h x hx
  constructor
  · simp only [simulate_player_transfer, hf]
  · intro res hres
    simp only [simulate_player_transfer, hf] at hres
    exact SimOutcome.noConfusion hres

/-- C9 witness: lookup of a player in an empty table. -/
theorem C9_player_not_found_witness :
    simulate_player_transfer "Lionel Messi" [] ["Goals"] "Real Madrid"
        "Spain La Liga 2025-26" [] [] false =
      SimOutcome.notFound
        ("Player " ++ "Lionel Messi" ++ " not found in 2025-26 data.") :=
  (C9_player_not_found "Lionel Messi" [] ["Goals"] "Real Madrid"
    "Spain La Liga 2025-26" [] [] false (by simp)).1

/-- C6: the claim is the spec's intent, and the code deviates. pandas
`mean()` over an empty cohort is NaN (first conjunct), not the claim's
`None` marker. With a genuine `None` on the to-side the scaler does ignore
that side (third conjunct: result 10.0); but with the NaN an empty cohort
actually produces, NaN is truthy, the NaN ratio poisons the context effect,
and the clamp `max(0.3, min(NaN, 3.0))` collapses the multiplier to 0.3:
the result is 3.0 instead of 10.0 (second conjunct). -/
theorem C6_empty_cohort_nan_not_ignored :
    pandasMean [] = PyFloat.nan ∧
    scale_metricF (.fin 10) 50 50 50 50 (some (.fin 2)) (some .nan) none none
        true 2 (2/5) = .fin 3 ∧
    scale_metricF (.fin 10) 50 50 50 50 (some (.fin 2)) none none none
        true 2 (2/5) = .fin 10 := by
  refine ⟨rfl, ?_, ?_⟩
  · have hcond : condF (some (PyFloat.fin 2)) (some PyFloat.nan) :=
      ⟨show (2 : ℝ) ≠ 0 by norm_num, trivial, show (0 : ℝ) < 2 by norm_num⟩
    have hncond : ¬ condF (none : Option PyFloat) (none : Option PyFloat) :=
      fun h => h.1
    simp only [scale_metricF, if_pos hcond, if_neg hncond, Option.getD_some]
    norm_num [pyDiv, pyPowR, pyMul, pyMin, pyMax, pyLt, round2F,
      Real.one_rpow]
    exact round2_fixed 300 (by norm_num)
  · have hn1 : ¬ condF (some (PyFloat.fin 2)) (none : Option PyFloat) :=
      fun h => h.2.1
    have hn2 : ¬ condF (none : Option PyFloat) (none : Option PyFloat) :=
      fun h => h.1
    simp only [scale_metricF, if_neg hn1, if_neg hn2]
    norm_num [pyMul, pyMin, pyMax, pyLt, round2F, Real.one_rpow]
    exact round2_fixed 1000 (by norm_num)

/-- C8: the claim is the spec's intent, and the code deviates on null
values. A metric whose COLUMN is absent does propagate as `none` without
touching the scaler ("Assists" entry), but a present-yet-null value (pandas
NaN, which is not Python `None`) IS passed to the scaler and the emitted
result is NaN, not `None` ("Goals" entry). -/
theorem C8_null_metric_scaled_to_nan :
    ∃ res : SimResult,
      simulate_player_transfer "P1"
          [{ player := "P1", parentTeam := "TeamA", league := "LeagueA",
             positionGroup := some "Forward",
             stats := [("Goals", PyFloat.nan)] }]
          ["Goals", "Assists"] "TeamB" "LeagueB" [] [] false =
        SimOutcome.ok res ∧
      res.scaledMetrics =
        [("Goals", some PyFloat.nan), ("Assists", none)] := by
  refine ⟨_, rfl, ?_⟩
  simp +decide [rowGet, List.find?, scale_metricF_nan, round2F]

end Claims

end TransferSim
